import Mathlib

/-
  Shallow embedding of the simulation core in src/src/game.cpp:
  grid storage (MapManager), entity animation state (GameObject),
  the per-entity movement controller (ObjectWalker), input-driven
  player movement (Player::runTick) and the per-tick viewport zoom
  computation (GameManager::runTick).
-/

namespace OOQ

/-- Modelled from the spec: the facing-direction enum `DIR` is declared in
game.h, which is not part of src/; the spec lists the four values
UP, DOWN, LEFT, RIGHT. -/
inductive DIR where
  | UP
  | DOWN
  | LEFT
  | RIGHT
  deriving DecidableEq

/-- Modelled from the spec: the sign helper `sgn` used by
ObjectWalker::runTick is declared outside src/; per spec section 4.2 it
returns the sign of its argument as one of -1, 0, +1. -/
def sgn (x : Int) : Int := if 0 < x then 1 else if x < 0 then -1 else 0

/-- Opaque texture reference: either the missing-texture fallback returned
by getMissingTexture, or a texture loaded from a path. -/
inductive Tex where
  | missing
  | loaded (path : String)
  deriving DecidableEq

/-- C++ std::vector resize(n, d): keep the first n elements, pad with d
when the vector is shorter than n (truncates when longer). -/
def vecResize (l : List α) (n : Nat) (d : α) : List α :=
  l.take n ++ List.replicate (n - l.length) d

/-- The tile/collision storage of MapManager (game.cpp): two parallel
growable 2D vectors. -/
structure MapManager where
  tile : List (List Tex)
  collision : List (List Int)
  deriving DecidableEq

/-- Grid extent on the x axis: tile.size(). -/
def MapManager.width (g : MapManager) : Nat := g.tile.length

/-- Grid extent on the y axis: tile[0].size() (0 for an empty grid). -/
def MapManager.height (g : MapManager) : Nat := g.tile.headI.length

/-- Well-formedness invariant maintained by the code: collision and tile
have the same number of rows and every row of either has the same length. -/
def MapManager.Uniform (g : MapManager) : Prop :=
  g.collision.length = g.tile.length ∧
  (∀ r ∈ g.tile, r.length = g.height) ∧
  (∀ r ∈ g.collision, r.length = g.height)

instance (g : MapManager) : Decidable g.Uniform := by
  unfold MapManager.Uniform
  infer_instance

/-- Tile stored at cell (i, j) (missing when out of range). -/
def MapManager.cellT (g : MapManager) (i j : Nat) : Tex :=
  (g.tile.getD i []).getD j Tex.missing

/-- Collision value stored at cell (i, j) (1 when out of range). -/
def MapManager.cellC (g : MapManager) (i j : Nat) : Int :=
  (g.collision.getD i []).getD j 1

/-- MapManager::getCollision (game.cpp lines 78-85): 1 for any
out-of-bounds coordinate, the stored value otherwise. -/
def MapManager.getCollision (g : MapManager) (pos_x pos_y : Int) : Int :=
  if pos_x < 0 ∨ pos_y < 0 ∨ (g.collision.length : Int) ≤ pos_x ∨
      ((g.collision.getD pos_x.toNat []).length : Int) ≤ pos_y then 1
  else (g.collision.getD pos_x.toNat []).getD pos_y.toNat 1

/-- The resize loops of MapManager::resizeMapStorage (game.cpp lines
112-118): resize the row vectors to size_x, then every row to size_y,
padding new rows with the missing texture and collision 1. -/
def MapManager.applySizes (g : MapManager) (size_x size_y : Nat) : MapManager :=
  { tile := (vecResize g.tile size_x []).map (fun r => vecResize r size_y Tex.missing),
    collision := (vecResize g.collision size_x []).map (fun r => vecResize r size_y 1) }

/-- MapManager::resizeMapStorage (game.cpp lines 94-119). -/
def MapManager.resizeMapStorage (g : MapManager) (x y : Int) (absolute : Bool) : MapManager :=
  let x := x + 1
  let y := y + 1
  let size_x : Nat := if absolute then x.toNat else max g.tile.length x.toNat
  let size_y : Nat :=
    if absolute then y.toNat
    else if g.tile.isEmpty then y.toNat
    else max g.tile.headI.length y.toNat
  g.applySizes size_x size_y

/-- The animation/position state of a GameObject (game.cpp): logical map
position, visual screen position, facing direction, animation frame
cursor and bounds, and the footprint size in tiles. -/
structure GameObject where
  map_x : Int
  map_y : Int
  screen_x : Int
  screen_y : Int
  dir : DIR
  current_frame : Nat
  loop_frame : Nat
  end_frame : Nat
  stop_frame : Nat
  size_x : Nat
  size_y : Nat
  deriving DecidableEq

/-- GameObject::advanceFrame (game.cpp lines 265-271): set direction,
increment the frame, wrap to loop_frame when it passes end_frame. -/
def GameObject.advanceFrame (o : GameObject) (d : DIR) : GameObject :=
  let o := { o with dir := d }
  if o.current_frame + 1 > o.end_frame then { o with current_frame := o.loop_frame }
  else { o with current_frame := o.current_frame + 1 }

/-- GameObject::stopFrame (game.cpp lines 273-281): the direction
assignment is commented out in the source; only current_frame changes. -/
def GameObject.stopFrame (o : GameObject) (_d : DIR) : GameObject :=
  if o.current_frame ≠ o.stop_frame ∧ o.current_frame ≠ 0 then
    { o with current_frame := o.stop_frame }
  else if o.current_frame ≠ 0 then
    { o with current_frame := 0 }
  else o

/-- GameObject::checkCollision (game.cpp lines 217-232): maximum collision
value over the footprint rectangle anchored at the offset map position. -/
def GameObject.checkCollision (g : MapManager) (o : GameObject)
    (offset_x offset_y : Int) : Int :=
  let tmp_x := o.map_x + offset_x
  let tmp_y := o.map_y + offset_y
  (List.range o.size_x).foldl (fun coll x =>
    (List.range o.size_y).foldl (fun coll y =>
      max coll (g.getCollision (tmp_x + (x : Int)) (tmp_y + (y : Int)))) coll) 0

/-- The state of an ObjectWalker (game.h members used by game.cpp):
destination in pixels, the two uint64 deadlines and the uint64 virtual
clock `tick`. -/
structure ObjectWalker where
  dest_x : Int
  dest_y : Int
  movement_deadline : Nat
  animation_deadline : Nat
  tick : Nat
  deriving DecidableEq

/-- Modulus of the uint64_t clock and deadline arithmetic. -/
def U64 : Nat := 2 ^ 64

/-- ObjectWalker::setDestination (game.cpp lines 293-301): record the
target and arm both deadlines to 0 so the next tick responds at once. -/
def ObjectWalker.setDestination (w : ObjectWalker) (x y : Int) : ObjectWalker :=
  { w with dest_x := x, dest_y := y, movement_deadline := 0, animation_deadline := 0 }

/-- One axis of the movement step in ObjectWalker::runTick (game.cpp lines
322-338): move by the sign of the residual, then clamp to the destination
when the residual sign flipped; returns the new coordinate and the sign
used for direction purposes. -/
def stepAxis (dest cur : Int) : Int × Int :=
  let s := sgn (dest - cur)
  let tmp := cur + s
  if s ≠ sgn (dest - tmp) then (dest, 0) else (tmp, s)

/-- ObjectWalker::runTick (game.cpp lines 310-369), acting on the walker
and its parent GameObject; SPEED and FRAME_TIME are the config.h timing
constants, taken as parameters. -/
def ObjectWalker.runTick (SPEED FRAME_TIME delta : Nat)
    (w : ObjectWalker) (o : GameObject) : ObjectWalker × GameObject :=
  let tick := (w.tick + delta) % U64
  if w.movement_deadline < tick then
    let px := stepAxis w.dest_x o.screen_x
    let py := stepAxis w.dest_y o.screen_y
    let d : DIR :=
      if |w.dest_x - px.1| > |w.dest_y - py.1| then
        if 0 ≤ px.2 then DIR.LEFT else DIR.RIGHT
      else
        if 0 ≤ py.2 then DIR.DOWN else DIR.UP
    let o := { o with screen_x := px.1, screen_y := py.1 }
    let w := { w with tick := tick, movement_deadline := (tick + SPEED) % U64 }
    if w.animation_deadline < tick then
      let o := if px.2 = 0 ∧ py.2 = 0 then o.stopFrame d else o.advanceFrame d
      ({ w with animation_deadline := (tick + FRAME_TIME) % U64 }, o)
    else (w, o)
  else ({ w with tick := tick }, o)

/-- GameObject::setMapPos (game.cpp lines 187-203) for an object that owns
an ObjectWalker (the Player): update the logical position, retarget the
walker, and snap the screen position only when not animating. TILE is the
config.h TILE_SIZE constant, taken as a parameter. -/
def GameObject.setMapPos (TILE : Int) (x y : Int) (anim : Bool)
    (w : ObjectWalker) (o : GameObject) : ObjectWalker × GameObject :=
  let o := { o with map_x := x, map_y := y }
  let w := w.setDestination (x * TILE) (y * TILE)
  if anim then (w, o)
  else (w, { o with screen_x := x * TILE, screen_y := y * TILE })

/-- The input-polling section of Player::runTick (game.cpp lines 465-486):
when the animation is at an idle pose, evaluate UP, RIGHT, DOWN, LEFT in
that order; each active, unblocked direction issues an animated one-tile
logical move. `inp` is the input source for this player's slot. -/
def Player.pollInput (TILE : Int) (inp : DIR → Bool) (g : MapManager)
    (w : ObjectWalker) (o : GameObject) : ObjectWalker × GameObject :=
  if o.current_frame = 0 ∨ o.current_frame = o.stop_frame then
    let s1 :=
      if inp DIR.UP = true ∧ GameObject.checkCollision g o 0 (-1) < 1 then
        GameObject.setMapPos TILE o.map_x (o.map_y - 1) true w o
      else (w, o)
    let s2 :=
      if inp DIR.RIGHT = true ∧ GameObject.checkCollision g s1.2 1 0 < 1 then
        GameObject.setMapPos TILE (s1.2.map_x + 1) s1.2.map_y true s1.1 s1.2
      else s1
    let s3 :=
      if inp DIR.DOWN = true ∧ GameObject.checkCollision g s2.2 0 1 < 1 then
        GameObject.setMapPos TILE s2.2.map_x (s2.2.map_y + 1) true s2.1 s2.2
      else s2
    let s4 :=
      if inp DIR.LEFT = true ∧ GameObject.checkCollision g s3.2 (-1) 0 < 1 then
        GameObject.setMapPos TILE (s3.2.map_x - 1) s3.2.map_y true s3.1 s3.2
      else s3
    s4
  else (w, o)

/-- Player::runTick (game.cpp lines 459-487): the base-class tick runs the
walker, then input is polled. -/
def Player.runTick (SPEED FRAME_TIME : Nat) (TILE : Int) (delta : Nat)
    (inp : DIR → Bool) (g : MapManager)
    (w : ObjectWalker) (o : GameObject) : ObjectWalker × GameObject :=
  let s := ObjectWalker.runTick SPEED FRAME_TIME delta w o
  Player.pollInput TILE inp g s.1 s.2

/-- The direction offsets checked and applied by Player::runTick. -/
def dirOffset : DIR → Int × Int
  | DIR.UP => (0, -1)
  | DIR.RIGHT => (1, 0)
  | DIR.DOWN => (0, 1)
  | DIR.LEFT => (-1, 0)

/-- One direction evaluation of Player::runTick, as a step function:
if the input is active and the offset cell is clear, issue the animated
one-tile move. -/
def dirStep (TILE : Int) (inp : DIR → Bool) (g : MapManager)
    (s : ObjectWalker × GameObject) (d : DIR) : ObjectWalker × GameObject :=
  if inp d = true ∧ GameObject.checkCollision g s.2 (dirOffset d).1 (dirOffset d).2 < 1 then
    GameObject.setMapPos TILE (s.2.map_x + (dirOffset d).1) (s.2.map_y + (dirOffset d).2) true s.1 s.2
  else s

/-- The viewport zoom loop of GameManager::runTick (game.cpp lines
604-607), with explicit fuel; the loop increments the multiplier while
the bounding box exceeds the 4:3 viewport on both axes. -/
def zoomIter (TILE sx sy : Nat) : Nat → Nat → Nat
  | 0, m => m
  | fuel + 1, m =>
    if 4 * m * TILE < sx ∧ 3 * m * TILE < sy then zoomIter TILE sx sy fuel (m + 1)
    else m

/-- The multiplier computed by one GameManager::runTick from the anchor
bounding box sizes: the loop starts from the local baseline 5 each tick.
Fuel sx suffices for any positive TILE. -/
def viewportMultiplier (TILE sx sy : Nat) : Nat := zoomIter TILE sx sy sx 5

/-- The bounding box accumulation of GameManager::runTick (game.cpp lines
569-594) over the camera-anchor centers of one tick, with the INT_MAX and
INT_MIN sentinels, followed by size_x and size_y (lines 602-603). -/
def anchorSizes (centers : List (Int × Int)) : Nat × Nat :=
  let min_x := centers.foldl (fun a c => min a c.1) 2147483647
  let min_y := centers.foldl (fun a c => min a c.2) 2147483647
  let max_x := centers.foldl (fun a c => max a c.1) (-2147483648)
  let max_y := centers.foldl (fun a c => max a c.2) (-2147483648)
  ((max_x - min_x).natAbs, (max_y - min_y).natAbs)

/-- The zoom multiplier used by one GameManager::runTick, as a function of
that tick's camera-anchor centers. -/
def tickMultiplier (TILE : Nat) (centers : List (Int × Int)) : Nat :=
  viewportMultiplier TILE (anchorSizes centers).1 (anchorSizes centers).2

/-- Pure per-axis position after n movement steps toward dest. -/
def walkN (dest cur : Int) : Nat → Int
  | 0 => cur
  | n + 1 => (stepAxis dest (walkN dest cur n)).1

/-- n successive ObjectWalker::runTick calls with a fixed delta. -/
def iterTicks (SPEED FRAME_TIME delta : Nat) :
    Nat → ObjectWalker × GameObject → ObjectWalker × GameObject
  | 0, s => s
  | n + 1, s =>
    iterTicks SPEED FRAME_TIME delta n (ObjectWalker.runTick SPEED FRAME_TIME delta s.1 s.2)

/-! Helper lemmas about vector resizing and cell access. -/

theorem getD_mem {l : List α} {i : Nat} (h : i < l.length) (d : α) : l.getD i d ∈ l := by
  rw [List.getD_eq_getElem?_getD, List.getElem?_eq_getElem h]
  exact List.getElem_mem h

theorem vecResize_length (l : List α) (n : Nat) (d : α) : (vecResize l n d).length = n := by
  simp [vecResize]
  omega

theorem vecResize_getD_of_lt (l : List α) {n i : Nat} (d d0 : α)
    (hn : i < n) (hl : i < l.length) : (vecResize l n d).getD i d0 = l.getD i d0 := by
  simp only [vecResize, List.getD_eq_getElem?_getD]
  rw [List.getElem?_append_left (by simp [List.length_take]; omega),
    List.getElem?_take_of_lt hn]

theorem vecResize_getD_of_ge (l : List α) {n i : Nat} (d d0 : α)
    (hn : i < n) (hl : l.length ≤ i) : (vecResize l n d).getD i d0 = d := by
  simp only [vecResize, List.getD_eq_getElem?_getD]
  rw [List.getElem?_append_right (by simp [List.length_take]; omega)]
  rw [List.getElem?_replicate_of_lt (by simp [List.length_take]; omega)]
  rfl

theorem getD_map_of_lt (f : α → β) (l : List α) {i : Nat} (h : i < l.length) (d : β) (d0 : α) :
    (l.map f).getD i d = f (l.getD i d0) := by
  simp [List.getD_eq_getElem?_getD, List.getElem?_eq_getElem, h]

/-! C1: the stop-frame toggle. -/

/-- C1 counterexample: for an entity with current_frame 3 and stop_frame 5
(neither 0 nor the stop frame), the first stopFrame call yields 5 and the
second yields 0 as claimed, but the third leaves the frame at 0 instead of
returning it to stop_frame 5. -/
theorem C1_cex :
    (GameObject.stopFrame ⟨0, 0, 0, 0, DIR.DOWN, 3, 1, 4, 5, 1, 1⟩ DIR.UP).current_frame = 5 ∧
    ((GameObject.stopFrame ⟨0, 0, 0, 0, DIR.DOWN, 3, 1, 4, 5, 1, 1⟩ DIR.UP).stopFrame
      DIR.UP).current_frame = 0 ∧
    ¬(((GameObject.stopFrame ⟨0, 0, 0, 0, DIR.DOWN, 3, 1, 4, 5, 1, 1⟩ DIR.UP).stopFrame
      DIR.UP).stopFrame DIR.UP).current_frame = 5 := by
  decide

/-- C1 amended: from any current_frame not in (0, stop_frame), the first
stopFrame call sets current_frame to stop_frame and the second sets it to
0; the third call leaves it at 0 (frame 0 is absorbing), rather than
returning to stop_frame. -/
theorem C1_amended (o : GameObject) (d1 d2 d3 : DIR)
    (h0 : o.current_frame ≠ 0) (hs : o.current_frame ≠ o.stop_frame) :
    (o.stopFrame d1).current_frame = o.stop_frame ∧
    ((o.stopFrame d1).stopFrame d2).current_frame = 0 ∧
    (((o.stopFrame d1).stopFrame d2).stopFrame d3).current_frame = 0 := by
  simp only [GameObject.stopFrame]
  split_ifs <;> simp_all

/-- C1 amended witness at a concrete entity state. -/
theorem C1_amended_witness :
    (GameObject.stopFrame ⟨0, 0, 0, 0, DIR.DOWN, 3, 1, 4, 5, 1, 1⟩ DIR.DOWN).current_frame = 5 ∧
    ((GameObject.stopFrame ⟨0, 0, 0, 0, DIR.DOWN, 3, 1, 4, 5, 1, 1⟩ DIR.DOWN).stopFrame
      DIR.DOWN).current_frame = 0 ∧
    (((GameObject.stopFrame ⟨0, 0, 0, 0, DIR.DOWN, 3, 1, 4, 5, 1, 1⟩ DIR.DOWN).stopFrame
      DIR.DOWN).stopFrame DIR.DOWN).current_frame = 0 :=
  C1_amended ⟨0, 0, 0, 0, DIR.DOWN, 3, 1, 4, 5, 1, 1⟩ DIR.DOWN DIR.DOWN DIR.DOWN
    (by decide) (by decide)

/-! C10: stopFrame never changes the facing direction. -/

/-- C10: for every direction argument and every entity state,
GameObject::stopFrame leaves the dir field unchanged (the assignment is
commented out in the source), while it can change current_frame; so a
direction computed by the movement controller on an arrival tick is
discarded. -/
theorem C10_stopFrame_keeps_dir :
    (∀ (o : GameObject) (d : DIR), (o.stopFrame d).dir = o.dir) ∧
    (∃ (o : GameObject) (d : DIR), (o.stopFrame d).current_frame ≠ o.current_frame) := by
  constructor
  · intro o d
    simp only [GameObject.stopFrame]
    split_ifs <;> rfl
  · exact ⟨⟨0, 0, 0, 0, DIR.DOWN, 3, 1, 4, 5, 1, 1⟩, DIR.UP, by decide⟩

/-! C8: collision lookup is total with a blocking default. -/

/-- C8: for every coordinate pair, getCollision returns 1 whenever the
coordinate is out of bounds on either axis (negative or at least the
extent) and the stored value otherwise; the lookup is total. Stated for
well-formed grids, the invariant the code maintains. -/
theorem C8_getCollision_default (g : MapManager) (x y : Int) (hg : g.Uniform) :
    ((x < 0 ∨ y < 0 ∨ (g.width : Int) ≤ x ∨ (g.height : Int) ≤ y) →
      g.getCollision x y = 1) ∧
    (0 ≤ x → 0 ≤ y → x < (g.width : Int) → y < (g.height : Int) →
      g.getCollision x y = g.cellC x.toNat y.toNat) := by
  obtain ⟨hlen, _htile, hcoll⟩ := hg
  unfold MapManager.width MapManager.height
  simp only [MapManager.height] at hcoll
  rw [← hlen]
  constructor
  · intro h
    rw [MapManager.getCollision, if_pos]
    rcases h with h | h | h | h
    · exact Or.inl h
    · exact Or.inr (Or.inl h)
    · exact Or.inr (Or.inr (Or.inl h))
    · by_cases hx0 : x < 0
      · exact Or.inl hx0
      · by_cases hxw : (g.collision.length : Int) ≤ x
        · exact Or.inr (Or.inr (Or.inl hxw))
        · refine Or.inr (Or.inr (Or.inr ?_))
          have hxlt : x.toNat < g.collision.length := by omega
          have := hcoll _ (getD_mem hxlt [])
          rw [this]
          exact h
  · intro hx0 hy0 hxw hyh
    have hxlt : x.toNat < g.collision.length := by omega
    have hrow := hcoll _ (getD_mem hxlt [])
    rw [MapManager.getCollision, if_neg]
    · rfl
    · push_neg
      refine ⟨by omega, by omega, by omega, ?_⟩
      rw [hrow]
      omega

/-- C8 witness: a concrete 1x1 grid with stored collision 0: out-of-bounds
queries return 1 and the in-bounds query returns the stored 0. -/
theorem C8_getCollision_default_witness :
    (MapManager.getCollision ⟨[[Tex.missing]], [[0]]⟩ (-1) 0 = 1) ∧
    (MapManager.getCollision ⟨[[Tex.missing]], [[0]]⟩ 0 0 =
      MapManager.cellC ⟨[[Tex.missing]], [[0]]⟩ 0 0) :=
  ⟨(C8_getCollision_default ⟨[[Tex.missing]], [[0]]⟩ (-1) 0 (by decide)).1
      (Or.inl (by decide)),
    (C8_getCollision_default ⟨[[Tex.missing]], [[0]]⟩ 0 0 (by decide)).2
      (by decide) (by decide) (by decide) (by decide)⟩

/-! Helper lemmas about the walker tick. -/

theorem stopFrame_screen_x (o : GameObject) (d : DIR) : (o.stopFrame d).screen_x = o.screen_x := by
  simp only [GameObject.stopFrame]
  split_ifs <;> rfl

theorem stopFrame_screen_y (o : GameObject) (d : DIR) : (o.stopFrame d).screen_y = o.screen_y := by
  simp only [GameObject.stopFrame]
  split_ifs <;> rfl

theorem advanceFrame_screen_x (o : GameObject) (d : DIR) :
    (o.advanceFrame d).screen_x = o.screen_x := by
  simp only [GameObject.advanceFrame]
  split_ifs <;> rfl

theorem advanceFrame_screen_y (o : GameObject) (d : DIR) :
    (o.advanceFrame d).screen_y = o.screen_y := by
  simp only [GameObject.advanceFrame]
  split_ifs <;> rfl

/-- When the updated clock has not passed the movement deadline, the tick
only advances the clock. -/
theorem runTick_noop (S F delta : Nat) (w : ObjectWalker) (o : GameObject)
    (h : (w.tick + delta) % U64 ≤ w.movement_deadline) :
    ObjectWalker.runTick S F delta w o = ({ w with tick := (w.tick + delta) % U64 }, o) := by
  simp only [ObjectWalker.runTick]
  rw [if_neg (not_lt.mpr h)]

/-- When the updated clock has passed the movement deadline, the tick
performs a movement step: it reschedules the deadline and steps both
screen axes, whatever the animation branch does. -/
theorem runTick_step (S F delta : Nat) (w : ObjectWalker) (o : GameObject)
    (h : w.movement_deadline < (w.tick + delta) % U64) :
    (ObjectWalker.runTick S F delta w o).1.dest_x = w.dest_x ∧
    (ObjectWalker.runTick S F delta w o).1.dest_y = w.dest_y ∧
    (ObjectWalker.runTick S F delta w o).1.tick = (w.tick + delta) % U64 ∧
    (ObjectWalker.runTick S F delta w o).1.movement_deadline =
      ((w.tick + delta) % U64 + S) % U64 ∧
    (ObjectWalker.runTick S F delta w o).2.screen_x = (stepAxis w.dest_x o.screen_x).1 ∧
    (ObjectWalker.runTick S F delta w o).2.screen_y = (stepAxis w.dest_y o.screen_y).1 := by
  simp only [ObjectWalker.runTick]
  rw [if_pos h]
  split_ifs with h2 h3 <;>
    simp [stopFrame_screen_x, stopFrame_screen_y, advanceFrame_screen_x, advanceFrame_screen_y]

/-! C4: the step trigger comparison. -/

/-- C4 counterexample: with movement deadline 10, clock 0 and delta 10,
the updated clock exactly equals the deadline, yet the tick changes
nothing but the clock — no movement step is performed (the deadline is
not rescheduled and the entity stays at screen position 0 although the
destination is 5). -/
theorem C4_cex :
    ObjectWalker.runTick 8 12 10 ⟨5, 0, 10, 0, 0⟩ ⟨0, 0, 0, 0, DIR.DOWN, 0, 1, 4, 5, 1, 1⟩ =
      (⟨5, 0, 10, 0, 10⟩, ⟨0, 0, 0, 0, DIR.DOWN, 0, 1, 4, 5, 1, 1⟩) ∧
    (0 + 10) % U64 = 10 := by
  constructor
  · rfl
  · rfl

/-- C4 amended: a tick performs a movement step exactly when the updated
clock is strictly greater than moveDeadline; when the updated clock is
less than or equal to moveDeadline (in particular when it exactly equals
it) the tick only advances the clock, leaving the rest of the controller,
the visual position and the animation state unchanged. -/
theorem C4_amended (S F delta : Nat) (w : ObjectWalker) (o : GameObject) :
    ((w.tick + delta) % U64 ≤ w.movement_deadline →
      ObjectWalker.runTick S F delta w o = ({ w with tick := (w.tick + delta) % U64 }, o)) ∧
    (w.movement_deadline < (w.tick + delta) % U64 →
      (ObjectWalker.runTick S F delta w o).1.movement_deadline =
        ((w.tick + delta) % U64 + S) % U64 ∧
      (ObjectWalker.runTick S F delta w o).2.screen_x = (stepAxis w.dest_x o.screen_x).1 ∧
      (ObjectWalker.runTick S F delta w o).2.screen_y = (stepAxis w.dest_y o.screen_y).1) := by
  refine ⟨fun h => runTick_noop S F delta w o h, fun h => ?_⟩
  obtain ⟨_, _, _, h4, h5, h6⟩ := runTick_step S F delta w o h
  exact ⟨h4, h5, h6⟩

/-- C4 amended witness: the no-op case at clock = deadline and the step
case one tick later, at concrete inputs. -/
theorem C4_amended_witness :
    ObjectWalker.runTick 8 12 9 ⟨5, 0, 10, 0, 1⟩ ⟨0, 0, 0, 0, DIR.DOWN, 0, 1, 4, 5, 1, 1⟩ =
      (⟨5, 0, 10, 0, 10⟩, ⟨0, 0, 0, 0, DIR.DOWN, 0, 1, 4, 5, 1, 1⟩) :=
  (C4_amended 8 12 9 ⟨5, 0, 10, 0, 1⟩ ⟨0, 0, 0, 0, DIR.DOWN, 0, 1, 4, 5, 1, 1⟩).1 (by decide)

/-! Helper lemmas about the viewport zoom loop. -/

theorem zoomIter_le (TILE sx sy : Nat) :
    ∀ (fuel m : Nat), m ≤ zoomIter TILE sx sy fuel m := by
  intro fuel
  induction fuel with
  | zero => intro m; exact Nat.le_refl m
  | succ fuel ih =>
    intro m
    simp only [zoomIter]
    split_ifs
    · exact Nat.le_trans (Nat.le_succ m) (ih (m + 1))
    · exact Nat.le_refl m

theorem zoomIter_fix (TILE sx sy : Nat) (hT : 0 < TILE) :
    ∀ (fuel m : Nat), sx ≤ m + fuel →
      ¬(4 * zoomIter TILE sx sy fuel m * TILE < sx ∧
        3 * zoomIter TILE sx sy fuel m * TILE < sy) := by
  intro fuel
  induction fuel with
  | zero =>
    intro m h
    simp only [zoomIter]
    rintro ⟨h1, -⟩
    have hm : m ≤ 4 * m * TILE := by nlinarith
    omega
  | succ fuel ih =>
    intro m h
    simp only [zoomIter]
    split_ifs with hc
    · exact ih (m + 1) (by omega)
    · exact hc

theorem zoomIter_below (TILE sx sy : Nat) :
    ∀ (fuel m k : Nat), m ≤ k → k < zoomIter TILE sx sy fuel m →
      4 * k * TILE < sx ∧ 3 * k * TILE < sy := by
  intro fuel
  induction fuel with
  | zero =>
    intro m k h1 h2
    simp only [zoomIter] at h2
    omega
  | succ fuel ih =>
    intro m k h1 h2
    simp only [zoomIter] at h2
    by_cases hc : 4 * m * TILE < sx ∧ 3 * m * TILE < sy
    · rw [if_pos hc] at h2
      rcases Nat.eq_or_lt_of_le h1 with rfl | hlt
      · exact hc
      · exact ih (m + 1) k hlt h2
    · rw [if_neg hc] at h2
      omega

/-! C2: when the zoom loop increments the multiplier. -/

/-- C2 counterexample: with tile size 16 and an anchor bounding box of
1000 by 0 pixels, the x extent exceeds the baseline viewport
(4*5*16 = 320 < 1000) while the y extent does not, and the multiplier is
not incremented: it stays at the baseline 5. -/
theorem C2_cex :
    viewportMultiplier 16 1000 0 = 5 ∧ 4 * 5 * 16 < 1000 ∧ ¬3 * 5 * 16 < 0 := by
  refine ⟨rfl, by omega, by omega⟩

/-- C2 amended: starting from the baseline 5, the multiplier is
incremented exactly as long as the bounding box extent exceeds the
current viewport extent on both axes simultaneously; the loop stops at
the first multiplier for which at least one axis no longer exceeds the
viewport, so a spread exceeding on only one axis does not increment. -/
theorem C2_amended (TILE sx sy : Nat) (hT : 0 < TILE) :
    5 ≤ viewportMultiplier TILE sx sy ∧
    ¬(4 * viewportMultiplier TILE sx sy * TILE < sx ∧
      3 * viewportMultiplier TILE sx sy * TILE < sy) ∧
    (∀ m, 5 ≤ m → m < viewportMultiplier TILE sx sy →
      4 * m * TILE < sx ∧ 3 * m * TILE < sy) :=
  ⟨zoomIter_le TILE sx sy sx 5,
    zoomIter_fix TILE sx sy hT sx 5 (by omega),
    fun m h1 h2 => zoomIter_below TILE sx sy sx 5 m h1 h2⟩

/-- C2 amended witness: at tile size 16 and a 400 by 400 anchor box the
loop yields 7, no further increment applies at 7, and both axes exceed
the viewport at multipliers 5 and 6. -/
theorem C2_amended_witness :
    5 ≤ viewportMultiplier 16 400 400 ∧
    ¬(4 * viewportMultiplier 16 400 400 * 16 < 400 ∧
      3 * viewportMultiplier 16 400 400 * 16 < 400) ∧
    (∀ m, 5 ≤ m → m < viewportMultiplier 16 400 400 →
      4 * m * 16 < 400 ∧ 3 * m * 16 < 400) :=
  C2_amended 16 400 400 (by decide)

/-! C3: the multiplier is recomputed from the baseline each tick. -/

/-- C3 counterexample: two successive ticks of the same session, the
first with camera anchors spread over a 400 by 400 box (multiplier 7) and
the second with a single anchor (multiplier 5): the multiplier used in
the later tick is smaller than in the earlier tick. -/
theorem C3_cex :
    tickMultiplier 16 [(400, 400)] < tickMultiplier 16 [(0, 0), (400, 400)] ∧
    tickMultiplier 16 [(0, 0), (400, 400)] = 7 ∧
    tickMultiplier 16 [(400, 400)] = 5 := by
  refine ⟨?_, rfl, rfl⟩
  decide

/-- C3 amended: the multiplier of each tick is recomputed from the local
baseline 5 as a function of that tick's anchor bounding box alone; it
never falls below 5, but across successive ticks it can decrease when the
anchor spread shrinks. -/
theorem C3_amended :
    (∀ (TILE : Nat) (centers : List (Int × Int)), 5 ≤ tickMultiplier TILE centers) ∧
    (∃ c1 c2 : List (Int × Int), tickMultiplier 16 c2 < tickMultiplier 16 c1) :=
  ⟨fun TILE centers => zoomIter_le TILE _ _ _ 5,
    ⟨[(0, 0), (400, 400)], [(400, 400)], by decide⟩⟩

/-! Helper lemmas about the per-axis step and its iteration. -/

/-- Closed form of the per-axis step: one pixel toward the destination,
staying put on arrival. -/
theorem stepAxis_fst (dest cur : Int) :
    (stepAxis dest cur).1 =
      if cur < dest then cur + 1 else if dest < cur then cur - 1 else dest := by
  simp only [stepAxis, sgn]
  split_ifs <;> first | rfl | omega

theorem walkN_succ (dest cur : Int) (n : Nat) :
    walkN dest cur (n + 1) = (stepAxis dest (walkN dest cur n)).1 := rfl

theorem walkN_shift (dest cur : Int) (n : Nat) :
    walkN dest ((stepAxis dest cur).1) n = walkN dest cur (n + 1) := by
  induction n with
  | zero => rfl
  | succ n ih =>
    rw [walkN_succ, ih]
    exact (walkN_succ dest cur (n + 1)).symm

theorem walkN_residual (dest cur : Int) (n : Nat) :
    (dest - walkN dest cur n).natAbs = (dest - cur).natAbs - n := by
  induction n with
  | zero => simp [walkN]
  | succ n ih =>
    rw [walkN_succ, stepAxis_fst]
    split_ifs <;> omega

theorem walkN_between (dest cur : Int) (n : Nat) :
    min cur dest ≤ walkN dest cur n ∧ walkN dest cur n ≤ max cur dest := by
  induction n with
  | zero => constructor <;> simp [walkN]
  | succ n ih =>
    rw [walkN_succ, stepAxis_fst]
    split_ifs <;> omega

theorem walkN_arrive (dest cur : Int) (n : Nat) (h : (dest - cur).natAbs ≤ n) :
    walkN dest cur n = dest := by
  have := walkN_residual dest cur n
  omega

/-- Invariants of n walker ticks at a cadence that makes every tick due:
the destination is unchanged, the clock accumulates, the deadline stays
within reach, and the screen position follows the pure step iteration. -/
theorem iterTicks_spec (S F delta : Nat) :
    ∀ (n : Nat) (w : ObjectWalker) (o : GameObject),
      S < delta →
      w.movement_deadline ≤ w.tick + S →
      w.tick + n * delta + S < U64 →
      (iterTicks S F delta n (w, o)).1.dest_x = w.dest_x ∧
      (iterTicks S F delta n (w, o)).1.dest_y = w.dest_y ∧
      (iterTicks S F delta n (w, o)).1.tick = w.tick + n * delta ∧
      (iterTicks S F delta n (w, o)).1.movement_deadline ≤
        (iterTicks S F delta n (w, o)).1.tick + S ∧
      (iterTicks S F delta n (w, o)).2.screen_x = walkN w.dest_x o.screen_x n ∧
      (iterTicks S F delta n (w, o)).2.screen_y = walkN w.dest_y o.screen_y n := by
  intro n
  induction n with
  | zero =>
    intro w o _h1 h2 _h3
    exact ⟨rfl, rfl, by simp [iterTicks], by simpa [iterTicks] using h2, rfl, rfl⟩
  | succ n ih =>
    intro w o h1 h2 h3
    rw [Nat.succ_mul] at h3
    have hwrap1 : w.tick + delta < U64 := by omega
    have hwrap2 : w.tick + delta + S < U64 := by omega
    have hstep : w.movement_deadline < (w.tick + delta) % U64 := by
      rw [Nat.mod_eq_of_lt hwrap1]
      omega
    obtain ⟨e1, e2, e3, e4, e5, e6⟩ :=
      runTick_step S F delta w o hstep
    have htick : (ObjectWalker.runTick S F delta w o).1.tick = w.tick + delta := by
      rw [e3, Nat.mod_eq_of_lt hwrap1]
    have hmd : (ObjectWalker.runTick S F delta w o).1.movement_deadline =
        w.tick + delta + S := by
      rw [e4, Nat.mod_eq_of_lt hwrap1, Nat.mod_eq_of_lt hwrap2]
    have ih' := ih (ObjectWalker.runTick S F delta w o).1
      (ObjectWalker.runTick S F delta w o).2 h1
      (by rw [hmd, htick])
      (by rw [htick]; omega)
    obtain ⟨i1, i2, i3, i4, i5, i6⟩ := ih'
    have hiter : iterTicks S F delta (n + 1) (w, o) =
        iterTicks S F delta n
          ((ObjectWalker.runTick S F delta w o).1, (ObjectWalker.runTick S F delta w o).2) :=
      rfl
    rw [hiter]
    refine ⟨by rw [i1, e1], by rw [i2, e2], ?_, i4, ?_, ?_⟩
    · rw [i3, htick, Nat.succ_mul]
      omega
    · rw [i5, e1, e5, walkN_shift]
    · rw [i6, e2, e6, walkN_shift]

/-! C5: stepwise movement and exact arrival. -/

/-- C5: each movement step moves each axis by at most one pixel toward
the target without leaving the interval between start and target; a step
whose residual sign flips is clamped exactly to the target; and when the
walker is ticked at a fixed cadence that keeps every tick due, after n
ticks covering both initial residuals the visual position equals exactly
the destination, never having been beyond it on either axis at any
intermediate tick. -/
theorem C5_exact_arrival (S F delta : Nat) (w : ObjectWalker) (o : GameObject) (n : Nat)
    (h1 : S < delta) (h2 : w.movement_deadline ≤ w.tick + S)
    (h3 : w.tick + n * delta + S < U64) :
    (∀ dest cur : Int, ((stepAxis dest cur).1 - cur).natAbs ≤ 1 ∧
      min cur dest ≤ (stepAxis dest cur).1 ∧ (stepAxis dest cur).1 ≤ max cur dest) ∧
    (∀ dest cur : Int,
      sgn (dest - cur) ≠ sgn (dest - (cur + sgn (dest - cur))) →
      (stepAxis dest cur).1 = dest) ∧
    (∀ k, k ≤ n →
      min o.screen_x w.dest_x ≤ (iterTicks S F delta k (w, o)).2.screen_x ∧
      (iterTicks S F delta k (w, o)).2.screen_x ≤ max o.screen_x w.dest_x ∧
      min o.screen_y w.dest_y ≤ (iterTicks S F delta k (w, o)).2.screen_y ∧
      (iterTicks S F delta k (w, o)).2.screen_y ≤ max o.screen_y w.dest_y) ∧
    ((w.dest_x - o.screen_x).natAbs ≤ n → (w.dest_y - o.screen_y).natAbs ≤ n →
      (iterTicks S F delta n (w, o)).2.screen_x = w.dest_x ∧
      (iterTicks S F delta n (w, o)).2.screen_y = w.dest_y) := by
  refine ⟨?_, ?_, ?_, ?_⟩
  · intro dest cur
    rw [stepAxis_fst]
    split_ifs <;> (refine ⟨?_, ?_, ?_⟩ <;> omega)
  · intro dest cur h
    simp only [stepAxis]
    rw [if_pos h]
  · intro k hk
    have hk3 : w.tick + k * delta + S < U64 := by
      have : k * delta ≤ n * delta := Nat.mul_le_mul_right delta hk
      omega
    obtain ⟨-, -, -, -, i5, i6⟩ := iterTicks_spec S F delta k w o h1 h2 hk3
    rw [i5, i6]
    have bx := walkN_between w.dest_x o.screen_x k
    have by' := walkN_between w.dest_y o.screen_y k
    exact ⟨by omega, by omega, by omega, by omega⟩
  · intro hx hy
    obtain ⟨-, -, -, -, i5, i6⟩ := iterTicks_spec S F delta n w o h1 h2 h3
    rw [i5, i6, walkN_arrive _ _ _ hx, walkN_arrive _ _ _ hy]
    exact ⟨rfl, rfl⟩

/-- C5 witness: with SPEED 1, delta 2, start (0, 0) and destination
(3, -2), after 5 due ticks the visual position is exactly the
destination. -/
theorem C5_exact_arrival_witness :
    (iterTicks 1 1 2 5 (⟨3, -2, 0, 0, 0⟩, ⟨0, 0, 0, 0, DIR.DOWN, 0, 1, 4, 5, 1, 1⟩)).2.screen_x
        = 3 ∧
    (iterTicks 1 1 2 5 (⟨3, -2, 0, 0, 0⟩, ⟨0, 0, 0, 0, DIR.DOWN, 0, 1, 4, 5, 1, 1⟩)).2.screen_y
        = -2 :=
  (C5_exact_arrival 1 1 2 ⟨3, -2, 0, 0, 0⟩ ⟨0, 0, 0, 0, DIR.DOWN, 0, 1, 4, 5, 1, 1⟩ 5
    (by decide) (by decide) (by decide)).2.2.2 (by decide) (by decide)

/-! Helper lemmas about applySizes. -/

theorem headI_mem_of_ne [Inhabited α] {l : List α} (h : l ≠ []) : l.headI ∈ l := by
  cases l with
  | nil => exact absurd rfl h
  | cons a t => exact List.mem_cons_self a t

theorem applySizes_tile_length (g : MapManager) (sx sy : Nat) :
    (g.applySizes sx sy).tile.length = sx := by
  simp [MapManager.applySizes, vecResize_length]

theorem applySizes_collision_length (g : MapManager) (sx sy : Nat) :
    (g.applySizes sx sy).collision.length = sx := by
  simp [MapManager.applySizes, vecResize_length]

theorem applySizes_tile_rows (g : MapManager) (sx sy : Nat) :
    ∀ r ∈ (g.applySizes sx sy).tile, r.length = sy := by
  intro r hr
  simp only [MapManager.applySizes, List.mem_map] at hr
  obtain ⟨a, -, rfl⟩ := hr
  exact vecResize_length a sy Tex.missing

theorem applySizes_collision_rows (g : MapManager) (sx sy : Nat) :
    ∀ r ∈ (g.applySizes sx sy).collision, r.length = sy := by
  intro r hr
  simp only [MapManager.applySizes, List.mem_map] at hr
  obtain ⟨a, -, rfl⟩ := hr
  exact vecResize_length a sy 1

theorem applySizes_height_of_pos (g : MapManager) (sx sy : Nat) (h : 0 < sx) :
    (g.applySizes sx sy).height = sy := by
  have hne : (g.applySizes sx sy).tile ≠ [] := by
    intro he
    have := applySizes_tile_length g sx sy
    rw [he] at this
    simp at this
    omega
  exact applySizes_tile_rows g sx sy _ (headI_mem_of_ne hne)

theorem applySizes_Uniform (g : MapManager) (sx sy : Nat) :
    (g.applySizes sx sy).Uniform := by
  refine ⟨?_, ?_, ?_⟩
  · rw [applySizes_collision_length, applySizes_tile_length]
  · intro r hr
    have hsx : 0 < sx := by
      have hlen := applySizes_tile_length g sx sy
      have : (g.applySizes sx sy).tile ≠ [] := List.ne_nil_of_mem hr
      have := List.length_pos.mpr this
      omega
    rw [applySizes_height_of_pos g sx sy hsx]
    exact applySizes_tile_rows g sx sy r hr
  · intro r hr
    have hsx : 0 < sx := by
      have hlen := applySizes_collision_length g sx sy
      have : (g.applySizes sx sy).collision ≠ [] := List.ne_nil_of_mem hr
      have := List.length_pos.mpr this
      omega
    rw [applySizes_height_of_pos g sx sy hsx]
    exact applySizes_collision_rows g sx sy r hr

theorem applySizes_cellT_old (g : MapManager) (sx sy : Nat) (hg : g.Uniform)
    {i j : Nat} (hiw : i < g.width) (hisx : i < sx) (hjh : j < g.height) (hjsy : j < sy) :
    (g.applySizes sx sy).cellT i j = g.cellT i j := by
  obtain ⟨-, htile, -⟩ := hg
  unfold MapManager.cellT MapManager.applySizes
  rw [getD_map_of_lt _ _ (by rw [vecResize_length]; exact hisx) _ []]
  rw [vecResize_getD_of_lt g.tile [] [] hisx hiw]
  have hrlen : (g.tile.getD i []).length = g.height := htile _ (getD_mem hiw [])
  rw [vecResize_getD_of_lt _ _ _ hjsy (by rw [hrlen]; exact hjh)]

theorem applySizes_cellC_old (g : MapManager) (sx sy : Nat) (hg : g.Uniform)
    {i j : Nat} (hiw : i < g.width) (hisx : i < sx) (hjh : j < g.height) (hjsy : j < sy) :
    (g.applySizes sx sy).cellC i j = g.cellC i j := by
  obtain ⟨hlen, -, hcoll⟩ := hg
  have hic : i < g.collision.length := by
    rw [hlen]
    exact hiw
  unfold MapManager.cellC MapManager.applySizes
  rw [getD_map_of_lt _ _ (by rw [vecResize_length]; exact hisx) _ []]
  rw [vecResize_getD_of_lt g.collision [] [] hisx hic]
  have hrlen : (g.collision.getD i []).length = g.height := hcoll _ (getD_mem hic [])
  rw [vecResize_getD_of_lt _ _ _ hjsy (by rw [hrlen]; exact hjh)]

theorem applySizes_cellT_new (g : MapManager) (sx sy : Nat) (hg : g.Uniform)
    {i j : Nat} (hisx : i < sx) (hjsy : j < sy) (h : g.width ≤ i ∨ g.height ≤ j) :
    (g.applySizes sx sy).cellT i j = Tex.missing := by
  obtain ⟨-, htile, -⟩ := hg
  unfold MapManager.cellT MapManager.applySizes
  rw [getD_map_of_lt _ _ (by rw [vecResize_length]; exact hisx) _ []]
  by_cases hiw : i < g.width
  · have hj : g.height ≤ j := by
      rcases h with h | h
      · omega
      · exact h
    rw [vecResize_getD_of_lt g.tile [] [] hisx hiw]
    have hrlen : (g.tile.getD i []).length = g.height := htile _ (getD_mem hiw [])
    rw [vecResize_getD_of_ge _ _ _ hjsy (by rw [hrlen]; exact hj)]
  · rw [vecResize_getD_of_ge g.tile [] [] hisx (by unfold MapManager.width at hiw; omega)]
    rw [vecResize_getD_of_ge _ _ _ hjsy (by simp)]

theorem applySizes_cellC_new (g : MapManager) (sx sy : Nat) (hg : g.Uniform)
    {i j : Nat} (hisx : i < sx) (hjsy : j < sy) (h : g.width ≤ i ∨ g.height ≤ j) :
    (g.applySizes sx sy).cellC i j = 1 := by
  obtain ⟨hlen, -, hcoll⟩ := hg
  unfold MapManager.cellC MapManager.applySizes
  rw [getD_map_of_lt _ _ (by rw [vecResize_length]; exact hisx) _ []]
  by_cases hic : i < g.collision.length
  · have hj : g.height ≤ j := by
      rcases h with h | h
      · unfold MapManager.width at h
        omega
      · exact h
    rw [vecResize_getD_of_lt g.collision [] [] hisx hic]
    have hrlen : (g.collision.getD i []).length = g.height := hcoll _ (getD_mem hic [])
    rw [vecResize_getD_of_ge _ _ _ hjsy (by rw [hrlen]; exact hj)]
  · rw [vecResize_getD_of_ge g.collision [] [] hisx (by omega)]
    rw [vecResize_getD_of_ge _ _ _ hjsy (by simp)]

theorem resizeMapStorage_true (g : MapManager) (x y : Int) :
    g.resizeMapStorage x y true = g.applySizes (x + 1).toNat (y + 1).toNat := rfl

theorem resizeMapStorage_false (g : MapManager) (x y : Int) :
    g.resizeMapStorage x y false =
      g.applySizes (max g.tile.length (x + 1).toNat) (max g.height (y + 1).toNat) := by
  unfold MapManager.resizeMapStorage
  by_cases he : g.tile.isEmpty
  · rw [List.isEmpty_iff] at he
    have h0 : g.height = 0 := by
      rw [MapManager.height, he]
      rfl
    simp [he, h0]
  · simp [he, MapManager.height]

/-! C6: absolute resize. -/

/-- C6 counterexample: a 1x1 grid holding an authored tile with collision
0; after resizeMapStorage(1, 1, true) the extent is exactly 2x2, but cell
(0, 0) still holds the authored tile and collision 0 — prior content
inside the retained region is not discarded and the cell does not hold
the missing texture and collision 1. -/
theorem C6_cex :
    (MapManager.resizeMapStorage ⟨[[Tex.loaded "a"]], [[0]]⟩ 1 1 true).width = 2 ∧
    (MapManager.resizeMapStorage ⟨[[Tex.loaded "a"]], [[0]]⟩ 1 1 true).cellT 0 0 =
      Tex.loaded "a" ∧
    (MapManager.resizeMapStorage ⟨[[Tex.loaded "a"]], [[0]]⟩ 1 1 true).cellC 0 0 = 0 := by
  decide

/-- C6 amended: resize(x, y) with absolute true resets storage to extent
exactly (x+1, y+1); cells inside the intersection with the prior extent
keep their previous tile and collision values, and only cells outside the
prior extent are initialized to the missing-tile texture and collision 1.
All prior content is discarded only when the new extent excludes it, as
in the (-1, -1) reset issued by loadMap. -/
theorem C6_amended (g : MapManager) (x y : Int) (hg : g.Uniform)
    (_hx : -1 ≤ x) (_hy : -1 ≤ y) :
    (g.resizeMapStorage x y true).width = (x + 1).toNat ∧
    (g.resizeMapStorage x y true).collision.length = (x + 1).toNat ∧
    (∀ r ∈ (g.resizeMapStorage x y true).tile, r.length = (y + 1).toNat) ∧
    (∀ r ∈ (g.resizeMapStorage x y true).collision, r.length = (y + 1).toNat) ∧
    (g.resizeMapStorage x y true).Uniform ∧
    (∀ i j, i < g.width → i < (x + 1).toNat → j < g.height → j < (y + 1).toNat →
      (g.resizeMapStorage x y true).cellT i j = g.cellT i j ∧
      (g.resizeMapStorage x y true).cellC i j = g.cellC i j) ∧
    (∀ i j, i < (x + 1).toNat → j < (y + 1).toNat → g.width ≤ i ∨ g.height ≤ j →
      (g.resizeMapStorage x y true).cellT i j = Tex.missing ∧
      (g.resizeMapStorage x y true).cellC i j = 1) := by
  rw [resizeMapStorage_true]
  refine ⟨applySizes_tile_length g _ _, applySizes_collision_length g _ _,
    applySizes_tile_rows g _ _, applySizes_collision_rows g _ _,
    applySizes_Uniform g _ _, ?_, ?_⟩
  · intro i j h1 h2 h3 h4
    exact ⟨applySizes_cellT_old g _ _ hg h1 h2 h3 h4,
      applySizes_cellC_old g _ _ hg h1 h2 h3 h4⟩
  · intro i j h1 h2 h3
    exact ⟨applySizes_cellT_new g _ _ hg h1 h2 h3,
      applySizes_cellC_new g _ _ hg h1 h2 h3⟩

/-- C6 amended witness: on the concrete 1x1 grid, the absolute resize to
2x2 keeps the overlapping cell and fills a new cell with the defaults. -/
theorem C6_amended_witness :
    ((MapManager.resizeMapStorage ⟨[[Tex.loaded "a"]], [[0]]⟩ 1 1 true).cellT 0 0 =
      MapManager.cellT ⟨[[Tex.loaded "a"]], [[0]]⟩ 0 0 ∧
     (MapManager.resizeMapStorage ⟨[[Tex.loaded "a"]], [[0]]⟩ 1 1 true).cellC 0 0 =
      MapManager.cellC ⟨[[Tex.loaded "a"]], [[0]]⟩ 0 0) ∧
    ((MapManager.resizeMapStorage ⟨[[Tex.loaded "a"]], [[0]]⟩ 1 1 true).cellT 1 1 =
      Tex.missing ∧
     (MapManager.resizeMapStorage ⟨[[Tex.loaded "a"]], [[0]]⟩ 1 1 true).cellC 1 1 = 1) :=
  ⟨(C6_amended ⟨[[Tex.loaded "a"]], [[0]]⟩ 1 1 (by decide) (by decide) (by decide)).2.2.2.2.2.1
      0 0 (by decide) (by decide) (by decide) (by decide),
    (C6_amended ⟨[[Tex.loaded "a"]], [[0]]⟩ 1 1 (by decide) (by decide) (by decide)).2.2.2.2.2.2
      1 1 (by decide) (by decide) (Or.inl (by decide))⟩

/-! C7: non-absolute resize only grows. -/

/-- C7: a non-absolute resize(x, y) from any well-formed grid sets the
extent on each axis to the maximum of the prior extent and x+1
(respectively y+1) — the grid never shrinks — keeps every previously
stored cell's tile and collision value, preserves well-formedness, and
initializes every newly created cell to the missing-tile texture and
collision 1. Applied to each call of a sequence in turn, this gives the
running maximum of all requests. -/
theorem C7_resize_monotone (g : MapManager) (x y : Int) (hg : g.Uniform)
    (hx : 0 ≤ x) (_hy : 0 ≤ y) :
    (g.resizeMapStorage x y false).width = max g.width (x + 1).toNat ∧
    (g.resizeMapStorage x y false).height = max g.height (y + 1).toNat ∧
    g.width ≤ (g.resizeMapStorage x y false).width ∧
    g.height ≤ (g.resizeMapStorage x y false).height ∧
    (g.resizeMapStorage x y false).Uniform ∧
    (∀ i j, i < g.width → j < g.height →
      (g.resizeMapStorage x y false).cellT i j = g.cellT i j ∧
      (g.resizeMapStorage x y false).cellC i j = g.cellC i j) ∧
    (∀ i j, i < (g.resizeMapStorage x y false).width →
      j < (g.resizeMapStorage x y false).height →
      g.width ≤ i ∨ g.height ≤ j →
      (g.resizeMapStorage x y false).cellT i j = Tex.missing ∧
      (g.resizeMapStorage x y false).cellC i j = 1) := by
  rw [resizeMapStorage_false]
  have hsx : 0 < max g.tile.length (x + 1).toNat := by omega
  have hw : (g.applySizes (max g.tile.length (x + 1).toNat)
      (max g.height (y + 1).toNat)).width = max g.width (x + 1).toNat := by
    unfold MapManager.width
    rw [applySizes_tile_length]
  have hh : (g.applySizes (max g.tile.length (x + 1).toNat)
      (max g.height (y + 1).toNat)).height = max g.height (y + 1).toNat :=
    applySizes_height_of_pos g _ _ hsx
  refine ⟨hw, hh, ?_, ?_, applySizes_Uniform g _ _, ?_, ?_⟩
  · rw [hw]
    unfold MapManager.width
    omega
  · rw [hh]
    omega
  · intro i j h1 h2
    have h1w : i < g.tile.length := h1
    exact ⟨applySizes_cellT_old g _ _ hg h1 (by omega) h2 (by omega),
      applySizes_cellC_old g _ _ hg h1 (by omega) h2 (by omega)⟩
  · intro i j h1 h2 h3
    rw [hw] at h1
    rw [hh] at h2
    have h1' : i < max g.tile.length (x + 1).toNat := by
      unfold MapManager.width at h1
      omega
    exact ⟨applySizes_cellT_new g _ _ hg h1' (by omega) h3,
      applySizes_cellC_new g _ _ hg h1' (by omega) h3⟩

/-- C7 witness: on the concrete 1x1 grid with an authored cell, growing
to (3, 1) keeps the authored cell and fills a new cell with the
defaults. -/
theorem C7_resize_monotone_witness :
    (MapManager.resizeMapStorage ⟨[[Tex.loaded "a"]], [[0]]⟩ 2 0 false).cellT 0 0 =
      MapManager.cellT ⟨[[Tex.loaded "a"]], [[0]]⟩ 0 0 ∧
    (MapManager.resizeMapStorage ⟨[[Tex.loaded "a"]], [[0]]⟩ 2 0 false).cellC 0 0 =
      MapManager.cellC ⟨[[Tex.loaded "a"]], [[0]]⟩ 0 0 :=
  (C7_resize_monotone ⟨[[Tex.loaded "a"]], [[0]]⟩ 2 0 (by decide) (by decide) (by decide)).2.2.2.2.2.1
    0 0 (by decide) (by decide)

/-! Helper lemmas about the input-polling section. -/

theorem dirStep_UP (TILE : Int) (inp : DIR → Bool) (g : MapManager)
    (s : ObjectWalker × GameObject) :
    dirStep TILE inp g s DIR.UP =
      if inp DIR.UP = true ∧ GameObject.checkCollision g s.2 0 (-1) < 1 then
        GameObject.setMapPos TILE s.2.map_x (s.2.map_y - 1) true s.1 s.2
      else s := by
  simp only [dirStep, dirOffset, add_zero, ← sub_eq_add_neg]

theorem dirStep_RIGHT (TILE : Int) (inp : DIR → Bool) (g : MapManager)
    (s : ObjectWalker × GameObject) :
    dirStep TILE inp g s DIR.RIGHT =
      if inp DIR.RIGHT = true ∧ GameObject.checkCollision g s.2 1 0 < 1 then
        GameObject.setMapPos TILE (s.2.map_x + 1) s.2.map_y true s.1 s.2
      else s := by
  simp only [dirStep, dirOffset]
  norm_num

theorem dirStep_DOWN (TILE : Int) (inp : DIR → Bool) (g : MapManager)
    (s : ObjectWalker × GameObject) :
    dirStep TILE inp g s DIR.DOWN =
      if inp DIR.DOWN = true ∧ GameObject.checkCollision g s.2 0 1 < 1 then
        GameObject.setMapPos TILE s.2.map_x (s.2.map_y + 1) true s.1 s.2
      else s := by
  simp only [dirStep, dirOffset]
  norm_num

theorem dirStep_LEFT (TILE : Int) (inp : DIR → Bool) (g : MapManager)
    (s : ObjectWalker × GameObject) :
    dirStep TILE inp g s DIR.LEFT =
      if inp DIR.LEFT = true ∧ GameObject.checkCollision g s.2 (-1) 0 < 1 then
        GameObject.setMapPos TILE (s.2.map_x - 1) s.2.map_y true s.1 s.2
      else s := by
  simp only [dirStep, dirOffset, add_zero, ← sub_eq_add_neg]

theorem setMapPos_anim_screen_x (TILE x y : Int) (w : ObjectWalker) (o : GameObject) :
    (GameObject.setMapPos TILE x y true w o).2.screen_x = o.screen_x := rfl

theorem setMapPos_anim_screen_y (TILE x y : Int) (w : ObjectWalker) (o : GameObject) :
    (GameObject.setMapPos TILE x y true w o).2.screen_y = o.screen_y := rfl

/-! C9: input-driven player movement. -/

/-- C9: on a player tick whose input poll finds the animation at an idle
pose (current_frame 0 or stop_frame), the four directions are evaluated
in the fixed order up, right, down, left (the poll equals the fold of the
per-direction step over that list); each active direction whose
checkCollision offset is clear issues an animated one-tile logical move
(the visual position is untouched by the poll); the evaluations are
independent, so with up and right both active and both clear the tick
applies both moves; and on a non-idle tick no input-driven move is
issued. -/
theorem C9_player_input (TILE : Int) (inp : DIR → Bool) (g : MapManager)
    (w : ObjectWalker) (o : GameObject) :
    (¬(o.current_frame = 0 ∨ o.current_frame = o.stop_frame) →
      Player.pollInput TILE inp g w o = (w, o)) ∧
    ((o.current_frame = 0 ∨ o.current_frame = o.stop_frame) →
      Player.pollInput TILE inp g w o =
        List.foldl (dirStep TILE inp g) (w, o) [DIR.UP, DIR.RIGHT, DIR.DOWN, DIR.LEFT]) ∧
    ((Player.pollInput TILE inp g w o).2.screen_x = o.screen_x ∧
      (Player.pollInput TILE inp g w o).2.screen_y = o.screen_y) ∧
    ((o.current_frame = 0 ∨ o.current_frame = o.stop_frame) →
      inp DIR.UP = true → inp DIR.RIGHT = true →
      inp DIR.DOWN = false → inp DIR.LEFT = false →
      GameObject.checkCollision g o 0 (-1) < 1 →
      GameObject.checkCollision g { o with map_y := o.map_y - 1 } 1 0 < 1 →
      (Player.pollInput TILE inp g w o).2.map_x = o.map_x + 1 ∧
      (Player.pollInput TILE inp g w o).2.map_y = o.map_y - 1 ∧
      (Player.pollInput TILE inp g w o).1.dest_x = (o.map_x + 1) * TILE ∧
      (Player.pollInput TILE inp g w o).1.dest_y = (o.map_y - 1) * TILE ∧
      (Player.pollInput TILE inp g w o).1.movement_deadline = 0) := by
  refine ⟨?_, ?_, ?_, ?_⟩
  · intro h
    simp only [Player.pollInput, if_neg h]
  · intro h
    simp only [List.foldl, dirStep_UP, dirStep_RIGHT, dirStep_DOWN, dirStep_LEFT]
    simp only [Player.pollInput, if_pos h]
  · simp only [Player.pollInput]
    split_ifs <;>
      simp [setMapPos_anim_screen_x, setMapPos_anim_screen_y]
  · intro h hU hR hD hL h1 h2
    simp only [Player.pollInput, if_pos h, hU, hR, hD, hL, eq_self_iff_true, true_and,
      Bool.false_eq_true, false_and, if_false]
    rw [if_pos h1]
    simp only [GameObject.setMapPos, ObjectWalker.setDestination]
    rw [if_pos (by exact h2)]
    exact ⟨rfl, rfl, rfl, rfl, rfl⟩

/-- C9 witness: on a fully clear 3x3 grid with the player idle at (1, 1)
and the up and right inputs both held, one input poll moves the player to
(2, 0) and retargets the walker with armed deadlines. -/
theorem C9_player_input_witness :
    (Player.pollInput 16
        (fun d => match d with | DIR.UP => true | DIR.RIGHT => true | _ => false)
        ⟨List.replicate 3 (List.replicate 3 Tex.missing), List.replicate 3 (List.replicate 3 0)⟩
        ⟨3, -2, 7, 9, 0⟩ ⟨1, 1, 16, 16, DIR.DOWN, 0, 1, 4, 5, 1, 1⟩).2.map_x = 1 + 1 ∧
    (Player.pollInput 16
        (fun d => match d with | DIR.UP => true | DIR.RIGHT => true | _ => false)
        ⟨List.replicate 3 (List.replicate 3 Tex.missing), List.replicate 3 (List.replicate 3 0)⟩
        ⟨3, -2, 7, 9, 0⟩ ⟨1, 1, 16, 16, DIR.DOWN, 0, 1, 4, 5, 1, 1⟩).2.map_y = 1 - 1 ∧
    (Player.pollInput 16
        (fun d => match d with | DIR.UP => true | DIR.RIGHT => true | _ => false)
        ⟨List.replicate 3 (List.replicate 3 Tex.missing), List.replicate 3 (List.replicate 3 0)⟩
        ⟨3, -2, 7, 9, 0⟩ ⟨1, 1, 16, 16, DIR.DOWN, 0, 1, 4, 5, 1, 1⟩).1.movement_deadline = 0 := by
  have h := (C9_player_input 16
      (fun d => match d with | DIR.UP => true | DIR.RIGHT => true | _ => false)
      ⟨List.replicate 3 (List.replicate 3 Tex.missing), List.replicate 3 (List.replicate 3 0)⟩
      ⟨3, -2, 7, 9, 0⟩ ⟨1, 1, 16, 16, DIR.DOWN, 0, 1, 4, 5, 1, 1⟩).2.2.2
    (Or.inl rfl) rfl rfl rfl rfl (by decide) (by decide)
  exact ⟨h.1, h.2.1, h.2.2.2.2⟩

end OOQ
